import Mathlib

/-!
Shallow embedding of the rent pallet (src/pallets/rent/src/lib.rs) and proofs
about its specification claims.

Modelling conventions:
* `AccountId`, `CollectibleId`, `Balance` and `BlockNumber` are modelled as
  `Nat`.  Collectible ids are 128-bit opaque values that are only ever
  compared for equality; `Balance` and `BlockNumber` are runtime type
  parameters (u64/u128 in practice) whose width is not fixed by the pallet,
  so they are kept unbounded.  Where the source converts values to `u32`
  (`convert_to_primitive` in `do_extend_rent`) the conversion panic and the
  wrapping `u32` multiplication are modelled explicitly.
* Substrate storage maps become association lists with overwrite-on-insert
  semantics; `ValueQuery` storage reads default to the empty list.
* A Rust panic (`unwrap` on `None`/`Err`) and the non-terminating probe loop
  of `append_pending_rental_to_available_block` are modelled as `none` of an
  `Option` result.
* A returned `DispatchError` is modelled as `Except.error (e, st)` where
  `st` is the storage state at the moment the error is produced; the frame
  dispatch layer executes each call inside a transactional storage layer and
  discards the changes of a failed call, which `dispatch` models by
  returning the caller's original state together with the error.
* The ledger is the external collaborator of the spec
  (`transfer(from, to, amount) -> Result<(), InsufficientFunds>`); the
  pallet helper `transfer_funds` first checks `free_balance(from) >= amount`
  and then performs the atomic move, which is modelled on a balance map.
-/

namespace PalletRent

/-- Errors of the pallet, mirroring `enum Error<T>` in the source. -/
inductive Error
  | DuplicateCollectible
  | NoCollectible
  | NoLessee
  | NotLessor
  | NotLessee
  | AlreadyRented
  | TooManyCollectibles
  | RentNotAvailable
  | CannotRentOwnCollectible
  | RentalPeriodTooShort
  | RentalPeriodTooLong
  | NotAllowedWhileRented
  | TooManyCollectiblesEquiped
  | TooManyCollectiblesOwned
  | NotEnoughBalance
  | MinimumMustBeLessThanMaximum
  | NoAccountFoundForCollectible
deriving DecidableEq, Repr

/-- Events of the pallet, mirroring `enum Event<T>` in the source. -/
inductive Event
  | CollectibleCreated (collectible : Nat) (lessor : Nat) (current_lessee : Option Nat)
  | TransferSucceeded (source : Nat) (dest : Nat) (collectible : Nat)
  | RentMadeAvailable (collectible : Nat) (price_per_block : Nat)
  | RentPayed (lessor : Nat) (lessee : Nat) (collectible : Nat) (total_rent_price : Nat)
  | RentalPeriodAdded (collectible : Nat) (next_rent_block : Nat)
  | RentalPeriodRemoved (collectible : Nat) (at_block : Nat)
  | RentalEnded (lessor : Nat) (lessee : Nat) (collectible : Nat)
  | RentMadeUnavailable (collectible : Nat)
  | RentalSetRecurring (collectible : Nat) (recurring : Bool)
  | ErrorTransferingRent (lessor : Nat) (lessee : Nat) (collectible : Nat)
  | CollectibleEquipped (account : Nat) (collectible : Nat)
  | CollectibleUnequipped (account : Nat) (collectible : Nat)
  | RentalExtended (lessor : Nat) (lessee : Nat) (collectible : Nat) (next_rent_block : Nat)
deriving DecidableEq, Repr

/-- `struct Collectible<T>` of the source. -/
structure Collectible where
  collectible_id : Nat
  price_per_block : Option Nat
  lessor : Nat
  lessee : Option Nat
  rentable : Bool
  minimum_rental_period : Option Nat
  maximum_rental_period : Option Nat
deriving DecidableEq, Repr

/-- `struct RentalPeriodConfig<T>` of the source. -/
structure RentalPeriodConfig where
  rental_periodic_interval : Nat
  next_rent_block : Nat
  recurring : Bool
deriving DecidableEq, Repr

/-- The two capacity constants of the pallet `Config` trait:
`MaximumOwned` bounds the owned, rentable and equipped lists, and
`MaximumRentablesPerBlock` bounds each due bucket of `PendingRentals`. -/
structure Config where
  maximumOwned : Nat
  maximumRentablesPerBlock : Nat
deriving DecidableEq, Repr

/-- Association-list lookup, the model of `StorageMap::get`. -/
def alookup {α β : Type} [DecidableEq α] : List (α × β) → α → Option β
  | [], _ => none
  | (k, v) :: rest, k' => if k' = k then some v else alookup rest k'

/-- Association-list removal, the model of `StorageMap::remove`. -/
def aremove {α β : Type} [DecidableEq α] (l : List (α × β)) (k : α) : List (α × β) :=
  l.filter (fun p => p.1 ≠ k)

/-- Association-list overwrite, the model of `StorageMap::insert`. -/
def ainsert {α β : Type} [DecidableEq α] (l : List (α × β)) (k : α) (v : β) : List (α × β) :=
  (k, v) :: aremove l k

/-- The full storage state of the pallet, together with the external
block number and ledger balances, and the emitted events (newest first). -/
structure State where
  collectibles : List (Nat × Collectible)
  lessorCollectibles : List (Nat × List Nat)
  lesseeCollectibles : List ((Nat × Nat) × RentalPeriodConfig)
  rentableCollectibles : List Nat
  pendingRentals : List (Nat × List (Nat × Nat))
  accountEquips : List (Nat × List Nat)
  balances : List (Nat × Nat)
  currentBlock : Nat
  events : List Event
deriving DecidableEq, Repr

/-- `PendingRentals` is `ValueQuery` storage: absent buckets read as empty. -/
def getPendingRentals (st : State) (b : Nat) : List (Nat × Nat) :=
  (alookup st.pendingRentals b).getD []

/-- Free balance of an account on the ledger collaborator (default 0). -/
def getBalance (st : State) (a : Nat) : Nat :=
  (alookup st.balances a).getD 0

/-- `deposit_event`. -/
def pushEvent (st : State) (e : Event) : State :=
  { st with events := e :: st.events }

/-- `fetch_collectible`. -/
def fetch_collectible (st : State) (cid : Nat) : Option Collectible :=
  alookup st.collectibles cid

/-- `transfer_funds`: checks `free_balance(from) >= amount` and then performs
the atomic ledger move of the external currency collaborator. -/
def transfer_funds (st : State) (source dest : Nat) (amount : Nat) :
    Except Error State :=
  if amount ≤ getBalance st source then
    let st1 := { st with balances := ainsert st.balances source (getBalance st source - amount) }
    Except.ok { st1 with balances := ainsert st1.balances dest (getBalance st1 dest + amount) }
  else
    Except.error Error.NotEnoughBalance

/-- `unequip_collectible_from_account`: retains all equips different from the
collectible and emits `CollectibleUnequipped` only when something was removed. -/
def unequip_collectible_from_account (st : State) (account cid : Nat) : State :=
  let equiped := (alookup st.accountEquips account).getD []
  let filtered := equiped.filter (fun c => c ≠ cid)
  let st1 := { st with accountEquips := ainsert st.accountEquips account filtered }
  if equiped.length ≠ filtered.length then
    pushEvent st1 (Event.CollectibleUnequipped account cid)
  else st1

/-- `append_pending_rental_to_available_block`.  The target bucket is
`starting_block_number (default: current block) + additional_rental_blocks`.
When the target bucket is full, the source loop sets
`block_number = frame_system::block_number() + 1` and re-reads that bucket on
EVERY iteration, so after the first failure it probes `current + 1` and, when
that bucket is full as well, re-probes the very same bucket forever; that
non-terminating loop is modelled as `none`. -/
def append_pending_rental_to_available_block (cfg : Config) (st : State)
    (starting_block_number : Option Nat) (additional_rental_blocks : Nat)
    (cid lessee : Nat) : Option (State × Nat) :=
  let starting := starting_block_number.getD st.currentBlock
  let target := starting + additional_rental_blocks
  let bucket := getPendingRentals st target
  if bucket.length < cfg.maximumRentablesPerBlock then
    let st1 := { st with pendingRentals := ainsert st.pendingRentals target (bucket ++ [(cid, lessee)]) }
    some (pushEvent st1 (Event.RentalPeriodAdded cid target), target)
  else
    let fallback := st.currentBlock + 1
    let bucket2 := getPendingRentals st fallback
    if bucket2.length < cfg.maximumRentablesPerBlock then
      let st1 := { st with pendingRentals := ainsert st.pendingRentals fallback (bucket2 ++ [(cid, lessee)]) }
      some (pushEvent st1 (Event.RentalPeriodAdded cid fallback), fallback)
    else none

/-- `remove_lessee_from_collectible`. -/
def remove_lessee_from_collectible (st : State) (lessee : Nat) (c : Collectible) : State :=
  let cid := c.collectible_id
  let st1 := { st with lesseeCollectibles := aremove st.lesseeCollectibles (lessee, cid) }
  let st2 := { st1 with collectibles := ainsert st1.collectibles cid { c with lessee := none } }
  unequip_collectible_from_account st2 lessee cid

/-- `do_mint`: inserts the fresh collectible and then pushes it onto the
lessor's bounded owned list. -/
def do_mint (cfg : Config) (st : State) (lessor cid : Nat) :
    Except (Error × State) State :=
  if (alookup st.collectibles cid).isSome then
    Except.error (Error.DuplicateCollectible, st)
  else
    let c : Collectible :=
      { collectible_id := cid
        price_per_block := none
        lessor := lessor
        lessee := none
        rentable := false
        minimum_rental_period := none
        maximum_rental_period := none }
    let st1 := { st with collectibles := ainsert st.collectibles cid c }
    let owned := (alookup st1.lessorCollectibles lessor).getD []
    if owned.length < cfg.maximumOwned then
      let st2 := { st1 with lessorCollectibles := ainsert st1.lessorCollectibles lessor (owned ++ [cid]) }
      Except.ok (pushEvent st2 (Event.CollectibleCreated cid lessor none))
    else
      Except.error (Error.TooManyCollectiblesOwned, st1)

/-- `burn`: requires the caller to be the lessor and no lessee; removes the
collectible, filters it from the owned list and force-unequips it. -/
def burn (st : State) (sender cid : Nat) : Except (Error × State) State :=
  match fetch_collectible st cid with
  | none => Except.error (Error.NoCollectible, st)
  | some c =>
    if c.lessor ≠ sender then Except.error (Error.NotLessor, st)
    else if c.lessee ≠ none then Except.error (Error.NotAllowedWhileRented, st)
    else
      let st1 := { st with collectibles := aremove st.collectibles cid }
      let owned := (alookup st1.lessorCollectibles sender).getD []
      let st2 := { st1 with lessorCollectibles := ainsert st1.lessorCollectibles sender (owned.filter (fun x => x ≠ cid)) }
      Except.ok (unequip_collectible_from_account st2 sender c.collectible_id)

/-- `set_rentable`: after the lessor / bound / unrented checks it first
inserts the repriced collectible and only then pushes onto the bounded
rentable list, so the capacity error is produced after a storage mutation
(reverted by the transactional dispatch layer). -/
def set_rentable (cfg : Config) (st : State)
    (sender cid price minP maxP : Nat) : Except (Error × State) State :=
  match fetch_collectible st cid with
  | none => Except.error (Error.NoCollectible, st)
  | some c =>
    if c.lessor ≠ sender then Except.error (Error.NotLessor, st)
    else if ¬ minP ≤ maxP then Except.error (Error.MinimumMustBeLessThanMaximum, st)
    else if c.lessee ≠ none then Except.error (Error.NotAllowedWhileRented, st)
    else
      let c' := { c with
        price_per_block := some price
        rentable := true
        minimum_rental_period := some minP
        maximum_rental_period := some maxP }
      let st1 := { st with collectibles := ainsert st.collectibles cid c' }
      if st1.rentableCollectibles.length < cfg.maximumOwned then
        let st2 := { st1 with rentableCollectibles := st1.rentableCollectibles ++ [cid] }
        let st3 := unequip_collectible_from_account st2 sender c.collectible_id
        Except.ok (pushEvent st3 (Event.RentMadeAvailable cid price))
      else
        Except.error (Error.TooManyCollectibles, st1)

/-- `set_unrentable`: clears the `rentable` flag and filters the id out of
the rentable list; it does not touch `lessee`. -/
def set_unrentable (st : State) (sender cid : Nat) : Except (Error × State) State :=
  match fetch_collectible st cid with
  | none => Except.error (Error.NoCollectible, st)
  | some c =>
    if c.lessor ≠ sender then Except.error (Error.NotLessor, st)
    else
      let st1 := { st with collectibles := ainsert st.collectibles cid { c with rentable := false } }
      let st2 := { st1 with rentableCollectibles := st1.rentableCollectibles.filter (fun x => x ≠ cid) }
      Except.ok (pushEvent st2 (Event.RentMadeUnavailable cid))

/-- `set_recurring`: requires the caller to be the lessee of the collectible
and an agreement to exist; flips the `recurring` flag. -/
def set_recurring (st : State) (sender cid : Nat) (recurring : Bool) :
    Except (Error × State) State :=
  match fetch_collectible st cid with
  | none => Except.error (Error.NoCollectible, st)
  | some c =>
    match c.lessee with
    | none => Except.error (Error.NoLessee, st)
    | some l =>
      if l ≠ sender then Except.error (Error.NotLessee, st)
      else
        match alookup st.lesseeCollectibles (sender, cid) with
        | none => Except.error (Error.NoCollectible, st)
        | some rc =>
          let st1 := { st with lesseeCollectibles := ainsert st.lesseeCollectibles (sender, cid) { rc with recurring := recurring } }
          let st2 := { st1 with collectibles := ainsert st1.collectibles cid c }
          Except.ok (pushEvent st2 (Event.RentalSetRecurring cid recurring))

/-- `do_rent_collectible`: charges `price_per_block * interval` upfront
(`unwrap` on a missing price panics, modelled as `none`), records the lessee,
schedules the due obligation and creates the rental agreement. -/
def do_rent_collectible (cfg : Config) (st : State)
    (cid lessee : Nat) (rent_periodic_interval : Nat) (recurring : Bool) :
    Option (Except (Error × State) State) :=
  match fetch_collectible st cid with
  | none => some (Except.error (Error.NoCollectible, st))
  | some c =>
    match c.price_per_block with
    | none => none
    | some price =>
      let total_rent_price := price * rent_periodic_interval
      match transfer_funds st lessee c.lessor total_rent_price with
      | Except.error e => some (Except.error (e, st))
      | Except.ok st1 =>
        let st2 := pushEvent st1 (Event.RentPayed c.lessor lessee cid total_rent_price)
        match append_pending_rental_to_available_block cfg st2 none rent_periodic_interval cid lessee with
        | none => none
        | some (st3, next_rent_block) =>
          let rc : RentalPeriodConfig :=
            { rental_periodic_interval := rent_periodic_interval
              next_rent_block := next_rent_block
              recurring := recurring }
          let st4 := { st3 with lesseeCollectibles := ainsert st3.lesseeCollectibles (lessee, cid) rc }
          some (Except.ok { st4 with collectibles := ainsert st4.collectibles cid { c with lessee := some lessee } })

/-- The `rent` extrinsic: period bounds, self-rental and existing-lessee
checks, then `do_rent_collectible`.  Note: the source never consults the
`rentable` flag here. -/
def rent (cfg : Config) (st : State) (sender cid blocks : Nat) (recurring : Bool) :
    Option (Except (Error × State) State) :=
  match fetch_collectible st cid with
  | none => some (Except.error (Error.NoCollectible, st))
  | some c =>
    if c.minimum_rental_period.any (fun m => decide (blocks < m)) then
      some (Except.error (Error.RentalPeriodTooShort, st))
    else if c.maximum_rental_period.any (fun m => decide (m < blocks)) then
      some (Except.error (Error.RentalPeriodTooLong, st))
    else if c.lessor = sender then
      some (Except.error (Error.CannotRentOwnCollectible, st))
    else if c.lessee.isSome then
      some (Except.error (Error.RentNotAvailable, st))
    else if c.lessee = some sender then
      some (Except.error (Error.AlreadyRented, st))
    else
      do_rent_collectible cfg st cid sender blocks recurring

/-- `do_extend_rent`: checks `blocks + next_rent_block <= maximum_rental_period`
(`unwrap` on a missing maximum panics), charges `blocks * price` computed via
two `u32` conversions (`convert_to_primitive(..).unwrap()`, which panics above
`2^32`, followed by a wrapping `u32` product), removes the current obligation
from its bucket, re-inserts probing from the old due block plus `blocks`, and
updates the agreement. -/
def do_extend_rent (cfg : Config) (st : State) (c : Collectible) (blocks : Nat) :
    Option (Except (Error × State) State) :=
  match c.lessee with
  | none => none
  | some lessee =>
    match alookup st.lesseeCollectibles (lessee, c.collectible_id) with
    | none => some (Except.error (Error.NoCollectible, st))
    | some rc =>
      match c.maximum_rental_period with
      | none => none
      | some maxP =>
        if maxP < blocks + rc.next_rent_block then
          some (Except.error (Error.RentalPeriodTooLong, st))
        else
          match c.price_per_block with
          | none => none
          | some price =>
            if 2 ^ 32 ≤ blocks ∨ 2 ^ 32 ≤ price then none
            else
              let total_rent_price := blocks * price % 2 ^ 32
              match transfer_funds st lessee c.lessor total_rent_price with
              | Except.error e => some (Except.error (e, st))
              | Except.ok st1 =>
                let st2 := pushEvent st1 (Event.RentPayed c.lessor lessee c.collectible_id total_rent_price)
                let d := rc.next_rent_block
                let bucket := getPendingRentals st2 d
                let st3 := { st2 with pendingRentals := ainsert st2.pendingRentals d (bucket.filter (fun p => p.1 ≠ c.collectible_id)) }
                let st4 := pushEvent st3 (Event.RentalPeriodRemoved c.collectible_id d)
                match append_pending_rental_to_available_block cfg st4 (some d) blocks c.collectible_id lessee with
                | none => none
                | some (st5, nb) =>
                  let st6 := { st5 with lesseeCollectibles := ainsert st5.lesseeCollectibles (lessee, c.collectible_id) { rc with next_rent_block := nb } }
                  let st7 := pushEvent st6 (Event.RentalExtended c.lessor lessee c.collectible_id nb)
                  some (Except.ok (pushEvent st7 (Event.RentalPeriodAdded c.collectible_id nb)))

/-- The `extend_rent` extrinsic: lessee check, then `do_extend_rent`. -/
def extend_rent (cfg : Config) (st : State) (sender cid blocks : Nat) :
    Option (Except (Error × State) State) :=
  match fetch_collectible st cid with
  | none => some (Except.error (Error.NoCollectible, st))
  | some c =>
    match c.lessee with
    | none => some (Except.error (Error.NoLessee, st))
    | some l =>
      if l ≠ sender then some (Except.error (Error.NotLessee, st))
      else do_extend_rent cfg st c blocks

/-- `equip_collectible`: the lessor may equip only a non-rentable collectible,
otherwise the current lessee may; the equip set is bounded. -/
def equip_collectible (cfg : Config) (st : State) (sender cid : Nat) :
    Except (Error × State) State :=
  match fetch_collectible st cid with
  | none => Except.error (Error.NoCollectible, st)
  | some c =>
    let accountRes : Except Error Nat :=
      if c.lessor = sender then
        if c.rentable then Except.error Error.NotAllowedWhileRented
        else Except.ok c.lessor
      else
        match c.lessee with
        | some l => if l ≠ sender then Except.error Error.NotLessee else Except.ok l
        | none => Except.error Error.NoAccountFoundForCollectible
    match accountRes with
    | Except.error e => Except.error (e, st)
    | Except.ok account =>
      let v := (alookup st.accountEquips account).getD []
      if v.length < cfg.maximumOwned then
        let st1 := { st with accountEquips := ainsert st.accountEquips account (v ++ [cid]) }
        Except.ok (pushEvent st1 (Event.CollectibleEquipped sender cid))
      else
        Except.error (Error.TooManyCollectiblesEquiped, st)

/-- `unequip_collectible`: allowed for the lessee, else the lessor. -/
def unequip_collectible (st : State) (sender cid : Nat) :
    Except (Error × State) State :=
  match fetch_collectible st cid with
  | none => Except.error (Error.NoCollectible, st)
  | some c =>
    let isLessee : Bool := match c.lessee with
      | some l => l = sender
      | none => false
    if isLessee = false ∧ c.lessor ≠ sender then Except.error (Error.NotLessor, st)
    else
      let st1 := unequip_collectible_from_account st sender c.collectible_id
      Except.ok (pushEvent st1 (Event.CollectibleUnequipped sender cid))

/-- The body of the per-entry loop of `do_process_rental_periods`.  The source
`unwrap`s the agreement lookup and the collectible lookup (a missing entry
panics, modelled as `none`); the terminate branch fires when the collectible
is not rentable, has no lessee, or the agreement is not recurring; otherwise
the due amount is charged and, on success, the obligation rescheduled. -/
def process_rental_entry (cfg : Config) (st : State) (entry : Nat × Nat) :
    Option State :=
  let cid := entry.1
  let lessee := entry.2
  match alookup st.lesseeCollectibles (lessee, cid) with
  | none => none
  | some rc =>
    match alookup st.collectibles cid with
    | none => none
    | some c =>
      if ¬ c.rentable ∨ c.lessee = none ∨ ¬ rc.recurring then
        let st1 := remove_lessee_from_collectible st lessee c
        some (pushEvent st1 (Event.RentalEnded c.lessor lessee cid))
      else
        match c.price_per_block with
        | none => none
        | some price =>
          let total_rent_price := price * rc.rental_periodic_interval
          match transfer_funds st lessee c.lessor total_rent_price with
          | Except.error _ =>
            let st1 := remove_lessee_from_collectible st lessee c
            some (pushEvent st1 (Event.ErrorTransferingRent c.lessor lessee cid))
          | Except.ok st1 =>
            let st2 := pushEvent st1 (Event.RentPayed c.lessor lessee cid total_rent_price)
            if rc.recurring then
              match append_pending_rental_to_available_block cfg st2 none rc.rental_periodic_interval cid lessee with
              | none => none
              | some (st3, nb) =>
                some { st3 with lesseeCollectibles := ainsert st3.lesseeCollectibles (lessee, cid) { rc with next_rent_block := nb } }
            else some st2

/-- The `for rental in rentals` loop of `do_process_rental_periods`. -/
def process_rental_list (cfg : Config) : State → List (Nat × Nat) → Option State
  | st, [] => some st
  | st, e :: rest =>
    match process_rental_entry cfg st e with
    | none => none
    | some st' => process_rental_list cfg st' rest

/-- `do_process_rental_periods`: reads the bucket at `n`, processes each entry
in order and finally removes the bucket. -/
def do_process_rental_periods (cfg : Config) (st : State) (n : Nat) : Option State :=
  match process_rental_list cfg st (getPendingRentals st n) with
  | none => none
  | some st' => some { st' with pendingRentals := aremove st'.pendingRentals n }

/-- The dispatchable calls of the pallet (the externally generated collectible
id of `mint` is passed in, since id generation is an external collaborator). -/
inductive Call
  | mint (sender cid : Nat)
  | burn (sender cid : Nat)
  | set_rentable (sender cid price minP maxP : Nat)
  | rent (sender cid blocks : Nat) (recurring : Bool)
  | set_unrentable (sender cid : Nat)
  | set_recurring (sender cid : Nat) (recurring : Bool)
  | extend_rent (sender cid blocks : Nat)
  | equip_collectible (sender cid : Nat)
  | unequip_collectible (sender cid : Nat)
deriving DecidableEq, Repr

/-- Raw execution of one dispatchable.  `none` models a panic inside the
call; `Except.error (e, st)` carries the storage state at the moment the
`DispatchError` is produced, before the transactional layer reverts it. -/
def dispatch_raw (cfg : Config) (st : State) : Call → Option (Except (Error × State) State)
  | Call.mint sender cid => some (do_mint cfg st sender cid)
  | Call.burn sender cid => some (burn st sender cid)
  | Call.set_rentable sender cid price minP maxP =>
      some (set_rentable cfg st sender cid price minP maxP)
  | Call.rent sender cid blocks recurring => rent cfg st sender cid blocks recurring
  | Call.set_unrentable sender cid => some (set_unrentable st sender cid)
  | Call.set_recurring sender cid r => some (set_recurring st sender cid r)
  | Call.extend_rent sender cid blocks => extend_rent cfg st sender cid blocks
  | Call.equip_collectible sender cid => some (equip_collectible cfg st sender cid)
  | Call.unequip_collectible sender cid => some (unequip_collectible st sender cid)

/-- Observable effect of one dispatchable: the frame dispatch layer runs every
`#[pallet::call]` inside a transactional storage layer, so the storage changes
of a failed call are discarded and the caller observes the original state
together with the reported error. -/
def dispatch (cfg : Config) (st : State) (c : Call) : Option (State × Option Error) :=
  match dispatch_raw cfg st c with
  | none => none
  | some (Except.ok st') => some (st', none)
  | some (Except.error (e, _)) => some (st, some e)

/-- Runs a list of calls, stopping (with `none`) on a panic or an error. -/
def run_calls (cfg : Config) : State → List Call → Option State
  | st, [] => some st
  | st, c :: rest =>
    match dispatch cfg st c with
    | some (st', none) => run_calls cfg st' rest
    | _ => none

/-- One step of the external driver: advance the clock by one tick and run
the per-tick sweep (`on_initialize` calls `do_process_rental_periods(n)`). -/
def advance_block (cfg : Config) (st : State) : Option State :=
  let n := st.currentBlock + 1
  do_process_rental_periods cfg { st with currentBlock := n } n

/-- A collectible list in which every currently rented collectible has a
price: the part of the spec invariant that the code actually maintains. -/
def CollOk (l : List (Nat × Collectible)) : Prop :=
  ∀ p ∈ l, p.2.lessee.isSome = true → p.2.price_per_block.isSome = true

/-- The state-level form of `CollOk`. -/
def LesseeImpliesPrice (st : State) : Prop :=
  CollOk st.collectibles

/-- The capacity constants of the test runtime (`mock.rs`). -/
def cfgMock : Config :=
  { maximumOwned := 100, maximumRentablesPerBlock := 100 }

/-- A small runtime configuration with one obligation per due bucket. -/
def cfgSmall : Config :=
  { maximumOwned := 10, maximumRentablesPerBlock := 1 }

/-- Genesis-like state: empty pallet storage, pre-funded ledger accounts
(as in the test `ExtBuilder`), clock at block 1. -/
def stGenesis : State :=
  { collectibles := []
    lessorCollectibles := []
    lesseeCollectibles := []
    rentableCollectibles := []
    pendingRentals := []
    accountEquips := []
    balances := [(1, 1000000000), (2, 1000000000), (3, 1000000000), (4, 1000000000)]
    currentBlock := 1
    events := [] }

/-- A state at block 10 whose buckets 11 and 12 are full for `cfgSmall`. -/
def stC1 : State :=
  { stGenesis with
    currentBlock := 10
    pendingRentals := [(12, [(7, 3)]), (11, [(8, 4)])] }

/-- Like `stC1` but with bucket 11 free. -/
def stC1b : State :=
  { stGenesis with
    currentBlock := 10
    pendingRentals := [(12, [(7, 3)])] }

/-- A priced collectible whose `rentable` flag is false (the state reached by
`set_rentable` followed by `set_unrentable` while unrented). -/
def cC2 : Collectible :=
  { collectible_id := 5
    price_per_block := some 100
    lessor := 1
    lessee := none
    rentable := false
    minimum_rental_period := some 1
    maximum_rental_period := some 30 }

/-- A state holding only `cC2`, with a funded prospective lessee. -/
def stC2 : State :=
  { stGenesis with collectibles := [(5, cC2)] }

/-- The state produced by renting the non-rentable collectible of `stC2`. -/
def stC2out : State :=
  match rent cfgMock stC2 2 5 10 false with
  | some (Except.ok s) => s
  | _ => stC2

/-- Calls reaching a state whose collectible 7 is rented and not rentable:
mint, price it, rent it, then `set_unrentable` during the rental. -/
def c3calls : List Call :=
  [Call.mint 1 7, Call.set_rentable 1 7 100 1 30, Call.rent 2 7 5 false,
   Call.set_unrentable 1 7]

/-- The state reached by `c3calls` from genesis. -/
def stC3out : State :=
  match run_calls cfgMock stGenesis c3calls with
  | some s => s
  | none => stGenesis

/-- The state reached from genesis by a single successful `mint`. -/
def stC3mint : State :=
  match dispatch_raw cfgMock stGenesis (Call.mint 1 7) with
  | some (Except.ok s) => s
  | _ => stGenesis

/-- Calls filling, for `cfgSmall`, buckets 4 and 5 with obligations of two
non-recurring rentals while a recurring rental is due at block 3. -/
def c4calls : List Call :=
  [Call.mint 1 101, Call.mint 1 102, Call.mint 1 103,
   Call.set_rentable 1 101 100 0 50, Call.set_rentable 1 102 100 0 50,
   Call.set_rentable 1 103 100 0 50,
   Call.rent 2 101 4 false, Call.rent 3 102 3 false, Call.rent 4 103 2 true]

/-- The state reached by `c4calls` from genesis (still at block 1). -/
def stC4 : State :=
  match run_calls cfgSmall stGenesis c4calls with
  | some s => s
  | none => stGenesis

/-- `stC4` after the (empty) sweep of block 2. -/
def stC4b : State :=
  match advance_block cfgSmall stC4 with
  | some s => s
  | none => stGenesis

/-- A rented, rentable, priced collectible with id 9 (as in the sweep tests). -/
def cSweep : Collectible :=
  { collectible_id := 9
    price_per_block := some 100
    lessor := 1
    lessee := some 2
    rentable := true
    minimum_rental_period := some 10
    maximum_rental_period := some 30 }

/-- A recurring rental of `cSweep`, due at block 11, lessee well funded;
the clock stands at the due block. -/
def stSweep : State :=
  { stGenesis with
    collectibles := [(9, cSweep)]
    lesseeCollectibles := [((2, 9), { rental_periodic_interval := 10, next_rent_block := 11, recurring := true })]
    pendingRentals := [(11, [(9, 2)])]
    accountEquips := [(2, [9])]
    balances := [(1, 1000), (2, 5000)]
    currentBlock := 11 }

/-- Like `stSweep` but the lessee cannot afford the due charge of 1000. -/
def stSweepPoor : State :=
  { stSweep with balances := [(1, 1000), (2, 50)] }

/-- Like `stSweep` but the agreement is not recurring. -/
def stSweepNonRec : State :=
  { stSweep with
    lesseeCollectibles := [((2, 9), { rental_periodic_interval := 10, next_rent_block := 11, recurring := false })] }

/-- An active rental of `cSweep` before its due block 11, for extension. -/
def stExtend : State :=
  { stGenesis with
    collectibles := [(9, cSweep)]
    lesseeCollectibles := [((2, 9), { rental_periodic_interval := 10, next_rent_block := 11, recurring := false })]
    pendingRentals := [(11, [(9, 2)])]
    balances := [(1, 1000), (2, 100000)]
    currentBlock := 5 }

/-- An unrented collectible listed in the rentable index and equipped by its
lessor, ready to be burned. -/
def cBurn : Collectible :=
  { collectible_id := 3
    price_per_block := some 50
    lessor := 1
    lessee := none
    rentable := true
    minimum_rental_period := some 1
    maximum_rental_period := some 10 }

/-- A state holding only `cBurn`. -/
def stBurn : State :=
  { stGenesis with
    collectibles := [(3, cBurn)]
    lessorCollectibles := [(1, [3])]
    rentableCollectibles := [3]
    accountEquips := [(1, [3])] }

/-- Extracts the success state of a dispatchable result. -/
def okState : Option (Except (Error × State) State) → Option State
  | some (Except.ok s) => some s
  | _ => none

/-- The stored collectible with the given id. -/
def collAt (cid : Nat) (s : State) : Option Collectible :=
  alookup s.collectibles cid

/-- The stored agreement for the given (lessee, collectible id) key. -/
def agreementAt (key : Nat × Nat) (s : State) : Option RentalPeriodConfig :=
  alookup s.lesseeCollectibles key

/-- The due bucket at the given block. -/
def bucketAt (b : Nat) (s : State) : List (Nat × Nat) :=
  getPendingRentals s b

/-- The ledger balance of the given account. -/
def balanceOf (a : Nat) (s : State) : Nat :=
  getBalance s a

/-- The equipped collectibles of the given account. -/
def equipsOf (a : Nat) (s : State) : List Nat :=
  (alookup s.accountEquips a).getD []

theorem alookup_aremove_self {α β : Type} [DecidableEq α] (l : List (α × β)) (k : α) :
    alookup (aremove l k) k = none := by
  induction l with
  | nil => rfl
  | cons p rest ih =>
    rcases p with ⟨a, b⟩
    by_cases h : a = k
    · simpa [aremove, List.filter_cons, h] using ih
    · simpa [aremove, List.filter_cons, h, alookup, Ne.symm h] using ih

theorem alookup_aremove_ne {α β : Type} [DecidableEq α] (l : List (α × β)) (k k' : α)
    (h : k' ≠ k) : alookup (aremove l k) k' = alookup l k' := by
  induction l with
  | nil => rfl
  | cons p rest ih =>
    rcases p with ⟨a, b⟩
    by_cases ha : a = k
    · subst ha
      simpa [aremove, List.filter_cons, alookup, h] using ih
    · by_cases hk : k' = a
      · simp [aremove, List.filter_cons, ha, alookup, hk]
      · simpa [aremove, List.filter_cons, ha, alookup, hk] using ih

theorem alookup_ainsert_self {α β : Type} [DecidableEq α] (l : List (α × β)) (k : α) (v : β) :
    alookup (ainsert l k v) k = some v := by
  simp [ainsert, alookup]

theorem alookup_ainsert_ne {α β : Type} [DecidableEq α] (l : List (α × β)) (k k' : α) (v : β)
    (h : k' ≠ k) : alookup (ainsert l k v) k' = alookup l k' := by
  simp [ainsert, alookup, h, alookup_aremove_ne l k k' h]

theorem alookup_mem {α β : Type} [DecidableEq α] {l : List (α × β)} {k : α} {v : β}
    (h : alookup l k = some v) : (k, v) ∈ l := by
  induction l with
  | nil => simp [alookup] at h
  | cons p rest ih =>
    rcases p with ⟨a, b⟩
    by_cases hk : k = a
    · subst hk
      simp only [alookup, if_true] at h
      obtain rfl : b = v := by simpa using h
      exact List.mem_cons_self _ _
    · simp only [alookup, hk, if_false] at h
      exact List.mem_cons_of_mem _ (ih h)

theorem mem_of_mem_aremove {α β : Type} [DecidableEq α] {q : α × β} {l : List (α × β)} {k : α}
    (h : q ∈ aremove l k) : q ∈ l :=
  (List.mem_filter.1 h).1

theorem mem_ainsert {α β : Type} [DecidableEq α] {q : α × β} {l : List (α × β)} {k : α} {v : β}
    (h : q ∈ ainsert l k v) : q = (k, v) ∨ q ∈ l := by
  rcases List.mem_cons.1 h with h' | h'
  · exact Or.inl h'
  · exact Or.inr (mem_of_mem_aremove h')

theorem collOk_ainsert {l : List (Nat × Collectible)} {k : Nat} {v : Collectible}
    (h : CollOk l) (hv : v.lessee.isSome = true → v.price_per_block.isSome = true) :
    CollOk (ainsert l k v) := by
  intro p hp
  rcases mem_ainsert hp with rfl | hp'
  · exact hv
  · exact h p hp'

theorem collOk_aremove {l : List (Nat × Collectible)} {k : Nat} (h : CollOk l) :
    CollOk (aremove l k) :=
  fun p hp => h p (mem_of_mem_aremove hp)

theorem collOk_lookup {l : List (Nat × Collectible)} {k : Nat} {c : Collectible}
    (h : CollOk l) (hk : alookup l k = some c) :
    c.lessee.isSome = true → c.price_per_block.isSome = true :=
  h (k, c) (alookup_mem hk)

theorem unequip_collectibles (st : State) (a i : Nat) :
    (unequip_collectible_from_account st a i).collectibles = st.collectibles := by
  simp only [unequip_collectible_from_account, pushEvent]
  split <;> rfl

theorem unequip_rentable (st : State) (a i : Nat) :
    (unequip_collectible_from_account st a i).rentableCollectibles = st.rentableCollectibles := by
  simp only [unequip_collectible_from_account, pushEvent]
  split <;> rfl

theorem unequip_lessorCollectibles (st : State) (a i : Nat) :
    (unequip_collectible_from_account st a i).lessorCollectibles = st.lessorCollectibles := by
  simp only [unequip_collectible_from_account, pushEvent]
  split <;> rfl

theorem unequip_lesseeCollectibles (st : State) (a i : Nat) :
    (unequip_collectible_from_account st a i).lesseeCollectibles = st.lesseeCollectibles := by
  simp only [unequip_collectible_from_account, pushEvent]
  split <;> rfl

theorem unequip_pendingRentals (st : State) (a i : Nat) :
    (unequip_collectible_from_account st a i).pendingRentals = st.pendingRentals := by
  simp only [unequip_collectible_from_account, pushEvent]
  split <;> rfl

theorem unequip_balances (st : State) (a i : Nat) :
    (unequip_collectible_from_account st a i).balances = st.balances := by
  simp only [unequip_collectible_from_account, pushEvent]
  split <;> rfl

theorem unequip_accountEquips (st : State) (a i : Nat) :
    (unequip_collectible_from_account st a i).accountEquips =
      ainsert st.accountEquips a (((alookup st.accountEquips a).getD []).filter (fun c => c ≠ i)) := by
  simp only [unequip_collectible_from_account, pushEvent]
  split <;> rfl

/-- Claim C10: burn deletes the asset, removes it from the lessor's owned
list and force-unequips it, but leaves the RentableIndex unchanged, so the
burned id remains listed as rentable. -/
theorem C10_burn_leaves_rentable_index (st : State) (sender cid : Nat) (c : Collectible)
    (hc : fetch_collectible st cid = some c)
    (hid : c.collectible_id = cid)
    (hlessor : c.lessor = sender)
    (hlessee : c.lessee = none)
    (hmem : cid ∈ st.rentableCollectibles) :
    ∃ st', burn st sender cid = Except.ok st' ∧
      st'.rentableCollectibles = st.rentableCollectibles ∧
      cid ∈ st'.rentableCollectibles ∧
      alookup st'.collectibles cid = none ∧
      cid ∉ ((alookup st'.lessorCollectibles sender).getD []) ∧
      cid ∉ ((alookup st'.accountEquips sender).getD []) := by
  have hb : burn st sender cid =
      Except.ok (unequip_collectible_from_account
        { st with
          collectibles := aremove st.collectibles cid
          lessorCollectibles := ainsert st.lessorCollectibles sender
            ((((alookup st.lessorCollectibles sender).getD [])).filter (fun x => x ≠ cid)) }
        sender cid) := by
    simp [burn, hc, hlessor, hlessee, hid]
  refine ⟨_, hb, ?_, ?_, ?_, ?_, ?_⟩
  · rw [unequip_rentable]
  · rw [unequip_rentable]; exact hmem
  · rw [unequip_collectibles]; exact alookup_aremove_self _ _
  · rw [unequip_lessorCollectibles]
    simp only [alookup_ainsert_self, Option.getD_some]
    intro hmem'
    simpa using (List.mem_filter.1 hmem').2
  · rw [unequip_accountEquips]
    simp only [alookup_ainsert_self, Option.getD_some]
    intro hmem'
    simpa using (List.mem_filter.1 hmem').2

theorem append_ok_collectibles (cfg : Config) (st : State) (sb : Option Nat)
    (abl cid lessee : Nat) (s' : State) (b : Nat)
    (h : append_pending_rental_to_available_block cfg st sb abl cid lessee = some (s', b)) :
    s'.collectibles = st.collectibles := by
  unfold append_pending_rental_to_available_block at h
  try dsimp only at h
  split at h
  · simp only [Option.some.injEq, Prod.mk.injEq] at h
    rw [← h.1]
    rfl
  · split at h
    · simp only [Option.some.injEq, Prod.mk.injEq] at h
      rw [← h.1]
      rfl
    · exact absurd h (by simp)

theorem transfer_ok_collectibles (st : State) (s d a : Nat) (st' : State)
    (h : transfer_funds st s d a = Except.ok st') :
    st'.collectibles = st.collectibles := by
  unfold transfer_funds at h
  split at h
  · simp only [Except.ok.injEq] at h
    rw [← h]
  · exact absurd h (by simp)

theorem remove_lessee_collOk (st : State) (lessee : Nat) (c : Collectible)
    (hinv : CollOk st.collectibles) :
    CollOk (remove_lessee_from_collectible st lessee c).collectibles := by
  unfold remove_lessee_from_collectible
  rw [unequip_collectibles]
  exact collOk_ainsert hinv (by simp)

theorem process_entry_collOk (cfg : Config) (st : State) (e : Nat × Nat) (st' : State)
    (h : process_rental_entry cfg st e = some st')
    (hinv : CollOk st.collectibles) : CollOk st'.collectibles := by
  unfold process_rental_entry at h
  try dsimp only at h
  split at h
  · exact absurd h (by simp)
  · split at h
    · exact absurd h (by simp)
    · split at h
      · simp only [Option.some.injEq] at h
        rw [← h]
        exact remove_lessee_collOk _ _ _ hinv
      · split at h
        · exact absurd h (by simp)
        · split at h
          · simp only [Option.some.injEq] at h
            rw [← h]
            exact remove_lessee_collOk _ _ _ hinv
          · rename_i st1 htr
            split at h
            · split at h
              · exact absurd h (by simp)
              · rename_i st3 nb happ
                simp only [Option.some.injEq] at h
                rw [← h]
                have h1 : st1.collectibles = st.collectibles :=
                  transfer_ok_collectibles _ _ _ _ _ htr
                have h3 := append_ok_collectibles _ _ _ _ _ _ _ _ happ
                show CollOk st3.collectibles
                rw [h3]
                show CollOk st1.collectibles
                rw [h1]
                exact hinv
            · simp only [Option.some.injEq] at h
              rw [← h]
              show CollOk st1.collectibles
              rw [transfer_ok_collectibles _ _ _ _ _ htr]
              exact hinv

theorem process_list_collOk (cfg : Config) :
    ∀ (l : List (Nat × Nat)) (st st' : State),
      process_rental_list cfg st l = some st' →
      CollOk st.collectibles → CollOk st'.collectibles := by
  intro l
  induction l with
  | nil =>
    intro st st' h hinv
    simp only [process_rental_list, Option.some.injEq] at h
    rw [← h]
    exact hinv
  | cons e rest ih =>
    intro st st' h hinv
    simp only [process_rental_list] at h
    split at h
    · exact absurd h (by simp)
    · rename_i st1 hstep
      exact ih st1 st' h (process_entry_collOk cfg st e st1 hstep hinv)

/-- Counterexample to claim C3: from genesis, collectible 7 is minted,
priced, rented by account 2, and then made unrentable by its lessor while
rented; in the resulting state the lessee is still `some 2` while `rentable`
is `false`, so the claimed invariant (lessee present implies rentable) fails
after `set_unrentable`. -/
theorem C3_counterexample :
    run_calls cfgMock stGenesis c3calls = some stC3out ∧
    (alookup stC3out.collectibles 7).map Collectible.lessee = some (some 2) ∧
    (alookup stC3out.collectibles 7).map Collectible.rentable = some false := by
  refine ⟨by rfl, by decide, by decide⟩

/-- Claim C3 (amended): after every operation and every sweep, any stored
collectible with a lessee has a price (`lessee.is_some()` implies
`price_per_tick.is_some()`); the `rentable == true` conjunct of the original
claim is dropped, since `set_unrentable` clears the flag without touching an
active lessee. -/
theorem C3_amended (cfg : Config) (st : State) (hinv : LesseeImpliesPrice st) :
    (∀ (c : Call) (st' : State), dispatch_raw cfg st c = some (Except.ok st') →
      LesseeImpliesPrice st') ∧
    (∀ (n : Nat) (st' : State), do_process_rental_periods cfg st n = some st' →
      LesseeImpliesPrice st') := by
  constructor
  · intro c st' h
    cases c with
    | mint sender cid =>
      simp only [dispatch_raw, Option.some.injEq] at h
      unfold do_mint at h
      try dsimp only at h
      split at h
      · exact absurd h (by simp)
      · split at h
        · simp only [Except.ok.injEq] at h
          rw [← h]
          exact collOk_ainsert hinv (by simp)
        · exact absurd h (by simp)
    | burn sender cid =>
      simp only [dispatch_raw, Option.some.injEq] at h
      unfold burn at h
      try dsimp only at h
      split at h
      · exact absurd h (by simp)
      · split at h
        · exact absurd h (by simp)
        · split at h
          · exact absurd h (by simp)
          · simp only [Except.ok.injEq] at h
            rw [← h]
            rw [LesseeImpliesPrice, unequip_collectibles]
            exact collOk_aremove hinv
    | set_rentable sender cid price minP maxP =>
      simp only [dispatch_raw, Option.some.injEq] at h
      unfold set_rentable at h
      try dsimp only at h
      split at h
      · exact absurd h (by simp)
      · split at h
        · exact absurd h (by simp)
        · split at h
          · exact absurd h (by simp)
          · split at h
            · exact absurd h (by simp)
            · split at h
              · simp only [Except.ok.injEq] at h
                rw [← h]
                rw [LesseeImpliesPrice, pushEvent, unequip_collectibles]
                exact collOk_ainsert hinv (by simp)
              · exact absurd h (by simp)
    | rent sender cid blocks recurring =>
      simp only [dispatch_raw] at h
      unfold rent at h
      try dsimp only at h
      split at h
      · exact absurd h (by simp)
      · rename_i c0 hc0
        split at h
        · exact absurd h (by simp)
        · split at h
          · exact absurd h (by simp)
          · split at h
            · exact absurd h (by simp)
            · split at h
              · exact absurd h (by simp)
              · split at h
                · exact absurd h (by simp)
                · unfold do_rent_collectible at h
                  try dsimp only at h
                  split at h
                  · exact absurd h (by simp)
                  · rename_i c2 hc2
                    split at h
                    · exact absurd h (by simp)
                    · rename_i price hprice
                      split at h
                      · exact absurd h (by simp)
                      · rename_i st1 htr
                        split at h
                        · exact absurd h (by simp)
                        · rename_i st3 nb happ
                          simp only [Option.some.injEq, Except.ok.injEq] at h
                          rw [← h]
                          show CollOk (ainsert st3.collectibles cid
                            { c2 with lessee := some sender })
                          have h3 := append_ok_collectibles _ _ _ _ _ _ _ _ happ
                          have h1 : st1.collectibles = st.collectibles :=
                            transfer_ok_collectibles _ _ _ _ _ htr
                          have hcc : st3.collectibles = st.collectibles := by
                            rw [h3]
                            exact h1
                          rw [hcc]
                          exact collOk_ainsert hinv (by simp [hprice])
    | set_unrentable sender cid =>
      simp only [dispatch_raw, Option.some.injEq] at h
      unfold set_unrentable at h
      try dsimp only at h
      split at h
      · exact absurd h (by simp)
      · rename_i c0 hc0
        split at h
        · exact absurd h (by simp)
        · simp only [Except.ok.injEq] at h
          rw [← h]
          show CollOk (ainsert st.collectibles cid { c0 with rentable := false })
          exact collOk_ainsert hinv (by simpa using collOk_lookup hinv hc0)
    | set_recurring sender cid recurring =>
      simp only [dispatch_raw, Option.some.injEq] at h
      unfold set_recurring at h
      try dsimp only at h
      split at h
      · exact absurd h (by simp)
      · rename_i c0 hc0
        split at h
        · exact absurd h (by simp)
        · split at h
          · exact absurd h (by simp)
          · split at h
            · exact absurd h (by simp)
            · simp only [Except.ok.injEq] at h
              rw [← h]
              show CollOk (ainsert st.collectibles cid c0)
              exact collOk_ainsert hinv (collOk_lookup hinv hc0)
    | extend_rent sender cid blocks =>
      simp only [dispatch_raw] at h
      unfold extend_rent at h
      try dsimp only at h
      split at h
      · exact absurd h (by simp)
      · split at h
        · exact absurd h (by simp)
        · split at h
          · exact absurd h (by simp)
          · unfold do_extend_rent at h
            try dsimp only at h
            split at h
            · exact absurd h (by simp)
            · split at h
              · exact absurd h (by simp)
              · split at h
                · exact absurd h (by simp)
                · split at h
                  · exact absurd h (by simp)
                  · split at h
                    · exact absurd h (by simp)
                    · split at h
                      · exact absurd h (by simp)
                      · split at h
                        · exact absurd h (by simp)
                        · rename_i st1 htr
                          split at h
                          · exact absurd h (by simp)
                          · rename_i st5 nb happ
                            simp only [Option.some.injEq, Except.ok.injEq] at h
                            rw [← h]
                            show CollOk st5.collectibles
                            have h5 := append_ok_collectibles _ _ _ _ _ _ _ _ happ
                            rw [h5]
                            show CollOk st1.collectibles
                            rw [transfer_ok_collectibles _ _ _ _ _ htr]
                            exact hinv
    | equip_collectible sender cid =>
      simp only [dispatch_raw, Option.some.injEq] at h
      unfold equip_collectible at h
      try dsimp only at h
      split at h
      · exact absurd h (by simp)
      · split at h
        · exact absurd h (by simp)
        · split at h
          · simp only [Except.ok.injEq] at h
            rw [← h]
            exact hinv
          · exact absurd h (by simp)
    | unequip_collectible sender cid =>
      simp only [dispatch_raw, Option.some.injEq] at h
      unfold unequip_collectible at h
      try dsimp only at h
      split at h
      · exact absurd h (by simp)
      · split at h
        · exact absurd h (by simp)
        · simp only [Except.ok.injEq] at h
          rw [← h]
          rw [LesseeImpliesPrice, pushEvent, unequip_collectibles]
          exact hinv
  · intro n st' h
    unfold do_process_rental_periods at h
    split at h
    · exact absurd h (by simp)
    · rename_i stf hproc
      simp only [Option.some.injEq] at h
      rw [← h]
      exact process_list_collOk cfg _ st stf hproc hinv

/-- Witness for C3 at the genesis state and a concrete successful mint. -/
theorem C3_witness : LesseeImpliesPrice stC3mint :=
  (C3_amended cfgMock stGenesis (by intro p hp; simp [stGenesis] at hp)).1
    (Call.mint 1 7) stC3mint (by rfl)

/-- Counterexample to claim C2: collectible 5 of `stC2` exists with
`rentable = false` (a previously priced collectible made unrentable), yet
`rent` by account 2 for 10 blocks succeeds and records the lessee, because
the source `rent` never consults the `rentable` flag; the claim that `rent`
must fail with a precondition error on every non-rentable asset is false. -/
theorem C2_counterexample :
    rent cfgMock stC2 2 5 10 false = some (Except.ok stC2out) ∧
    (alookup stC2out.collectibles 5).map Collectible.lessee = some (some 2) ∧
    (alookup stC2out.collectibles 5).map Collectible.rentable = some false := by
  refine ⟨by rfl, by decide, by decide⟩

/-- Claim C2 (amended): `rent` does not check the `rentable` flag.  It
succeeds (recording the caller as lessee and creating the agreement) for any
existing asset with a price set whose period bounds admit the request, whose
lessee is absent, whose lessor is not the caller and whose caller can afford
the upfront charge - regardless of the value of `rentable`. -/
theorem C2_amended (cfg : Config) (st : State) (sender cid blocks mn mx p : Nat)
    (recurring : Bool) (c : Collectible)
    (hc : fetch_collectible st cid = some c)
    (hmin : c.minimum_rental_period = some mn) (hmn : mn ≤ blocks)
    (hmax : c.maximum_rental_period = some mx) (hmx : blocks ≤ mx)
    (hlessor : c.lessor ≠ sender)
    (hlessee : c.lessee = none)
    (hp : c.price_per_block = some p)
    (hbal : p * blocks ≤ getBalance st sender)
    (hcap : (getPendingRentals st (st.currentBlock + blocks)).length <
      cfg.maximumRentablesPerBlock) :
    (okState (rent cfg st sender cid blocks recurring)).isSome = true ∧
    collAt cid ((okState (rent cfg st sender cid blocks recurring)).getD st) =
      some { c with lessee := some sender } ∧
    agreementAt (sender, cid) ((okState (rent cfg st sender cid blocks recurring)).getD st) =
      some { rental_periodic_interval := blocks
             next_rent_block := st.currentBlock + blocks
             recurring := recurring } := by
  have h1 : ¬ blocks < mn := by omega
  have h2 : ¬ mx < blocks := by omega
  have hbal2 : p * blocks ≤ (alookup st.balances sender).getD 0 := hbal
  have hcap2 : ((alookup st.pendingRentals (st.currentBlock + blocks)).getD []).length <
      cfg.maximumRentablesPerBlock := hcap
  refine ⟨?_, ?_, ?_⟩ <;>
    simp [rent, hc, hmin, hmax, h1, h2, hlessor, hlessee, do_rent_collectible, hp,
      transfer_funds, hbal2, getBalance, pushEvent, getPendingRentals,
      append_pending_rental_to_available_block, hcap2, okState, collAt, agreementAt,
      alookup_ainsert_self]

/-- Witness for C2 at the concrete non-rentable collectible of `stC2`. -/
theorem C2_witness :
    (okState (rent cfgMock stC2 2 5 10 false)).isSome = true ∧
    collAt 5 ((okState (rent cfgMock stC2 2 5 10 false)).getD stC2) =
      some { cC2 with lessee := some 2 } ∧
    agreementAt (2, 5) ((okState (rent cfgMock stC2 2 5 10 false)).getD stC2) =
      some { rental_periodic_interval := 10
             next_rent_block := 11
             recurring := false } :=
  C2_amended cfgMock stC2 2 5 10 1 30 100 false cC2 (by decide) (by decide) (by decide)
    (by decide) (by decide) (by decide) (by decide) (by decide) (by decide) (by decide)

/-- Counterexample to claim C1: at current tick 10 with interval 2 the target
bucket 12 and the fallback bucket 11 are both at capacity while bucket 13 is
under capacity, so a probe that increments by one tick on each failure would
succeed (at tick 13); the source probe instead re-reads bucket
current_tick + 1 forever and the insertion never terminates (`none`). -/
theorem C1_counterexample :
    append_pending_rental_to_available_block cfgSmall stC1 none 2 9 5 = none ∧
    (getPendingRentals stC1 13).length < cfgSmall.maximumRentablesPerBlock := by
  constructor
  · decide
  · decide

/-- Claim C1 (amended): the insertion first attempts the bucket at
start_tick + interval and, when that bucket is under capacity, the obligation
lands exactly there; when it is at capacity the probe resets to
current_tick + 1 (not target + 1) and retries only that single tick on every
further failure: if the fallback bucket is under capacity the obligation
lands at current_tick + 1, and otherwise the probe loop never terminates. -/
theorem C1_amended (cfg : Config) (st : State) (start : Option Nat)
    (interval cid lessee : Nat) :
    ((getPendingRentals st (start.getD st.currentBlock + interval)).length <
        cfg.maximumRentablesPerBlock →
      ∃ st', append_pending_rental_to_available_block cfg st start interval cid lessee =
          some (st', start.getD st.currentBlock + interval) ∧
        getPendingRentals st' (start.getD st.currentBlock + interval) =
          getPendingRentals st (start.getD st.currentBlock + interval) ++ [(cid, lessee)]) ∧
    (cfg.maximumRentablesPerBlock ≤
        (getPendingRentals st (start.getD st.currentBlock + interval)).length →
      (getPendingRentals st (st.currentBlock + 1)).length < cfg.maximumRentablesPerBlock →
      ∃ st', append_pending_rental_to_available_block cfg st start interval cid lessee =
          some (st', st.currentBlock + 1) ∧
        getPendingRentals st' (st.currentBlock + 1) =
          getPendingRentals st (st.currentBlock + 1) ++ [(cid, lessee)]) ∧
    (cfg.maximumRentablesPerBlock ≤
        (getPendingRentals st (start.getD st.currentBlock + interval)).length →
      cfg.maximumRentablesPerBlock ≤ (getPendingRentals st (st.currentBlock + 1)).length →
      append_pending_rental_to_available_block cfg st start interval cid lessee = none) := by
  refine ⟨?_, ?_, ?_⟩
  · intro h
    have happ : append_pending_rental_to_available_block cfg st start interval cid lessee =
        some (pushEvent
          { st with pendingRentals := (ainsert st.pendingRentals (start.getD st.currentBlock + interval) (getPendingRentals st (start.getD st.currentBlock + interval) ++ [(cid, lessee)])) }
          (Event.RentalPeriodAdded cid (start.getD st.currentBlock + interval)),
          start.getD st.currentBlock + interval) := by
      simp [append_pending_rental_to_available_block, h]
    refine ⟨_, happ, ?_⟩
    simp [pushEvent, getPendingRentals, alookup_ainsert_self]
  · intro h h2
    have happ : append_pending_rental_to_available_block cfg st start interval cid lessee =
        some (pushEvent
          { st with pendingRentals := (ainsert st.pendingRentals (st.currentBlock + 1) (getPendingRentals st (st.currentBlock + 1) ++ [(cid, lessee)])) }
          (Event.RentalPeriodAdded cid (st.currentBlock + 1)),
          st.currentBlock + 1) := by
      simp [append_pending_rental_to_available_block, Nat.not_lt.2 h, h2]
    refine ⟨_, happ, ?_⟩
    simp [pushEvent, getPendingRentals, alookup_ainsert_self]
  · intro h h2
    simp [append_pending_rental_to_available_block, Nat.not_lt.2 h, Nat.not_lt.2 h2]

/-- Witness for C1 at concrete states: the target-bucket clause at an
under-capacity target, the fallback clause with a full target and a free
fallback bucket, and the non-termination clause with both buckets full. -/
theorem C1_witness :
    (∃ st', append_pending_rental_to_available_block cfgSmall stC1 none 3 9 5 =
        some (st', 13) ∧
      getPendingRentals st' 13 = getPendingRentals stC1 13 ++ [(9, 5)]) ∧
    (∃ st', append_pending_rental_to_available_block cfgSmall stC1b none 2 9 5 =
        some (st', 11) ∧
      getPendingRentals st' 11 = getPendingRentals stC1b 11 ++ [(9, 5)]) ∧
    append_pending_rental_to_available_block cfgSmall stC1 none 2 9 5 = none := by
  refine ⟨?_, ?_, ?_⟩
  · exact (C1_amended cfgSmall stC1 none 3 9 5).1 (by decide)
  · exact (C1_amended cfgSmall stC1b none 2 9 5).2.1 (by decide) (by decide)
  · exact (C1_amended cfgSmall stC1 none 2 9 5).2.2 (by decide) (by decide)

/-- Claim C5: a recurring agreement processed by the sweep at tick n with a
sufficiently funded lessee pays `price_per_tick * interval` to the lessor,
emits the payment signal, inserts a new obligation with start tick n and the
same interval (landing at n + interval when that bucket is under capacity)
and updates the agreement's next due tick to the resulting tick. -/
theorem C5_recurring_renewal (cfg : Config) (st : State) (cid lessee : Nat)
    (rc : RentalPeriodConfig) (c : Collectible) (p : Nat)
    (hrc : alookup st.lesseeCollectibles (lessee, cid) = some rc)
    (hrec : rc.recurring = true)
    (hc : alookup st.collectibles cid = some c)
    (hrent : c.rentable = true)
    (hl : c.lessee ≠ none)
    (hp : c.price_per_block = some p)
    (hne : lessee ≠ c.lessor)
    (hbal : p * rc.rental_periodic_interval ≤ getBalance st lessee)
    (hcap : (getPendingRentals st (st.currentBlock + rc.rental_periodic_interval)).length <
      cfg.maximumRentablesPerBlock) :
    (process_rental_entry cfg st (cid, lessee)).isSome = true ∧
    balanceOf lessee ((process_rental_entry cfg st (cid, lessee)).getD st) =
      getBalance st lessee - p * rc.rental_periodic_interval ∧
    balanceOf c.lessor ((process_rental_entry cfg st (cid, lessee)).getD st) =
      getBalance st c.lessor + p * rc.rental_periodic_interval ∧
    Event.RentPayed c.lessor lessee cid (p * rc.rental_periodic_interval) ∈
      ((process_rental_entry cfg st (cid, lessee)).getD st).events ∧
    bucketAt (st.currentBlock + rc.rental_periodic_interval)
        ((process_rental_entry cfg st (cid, lessee)).getD st) =
      getPendingRentals st (st.currentBlock + rc.rental_periodic_interval) ++ [(cid, lessee)] ∧
    agreementAt (lessee, cid) ((process_rental_entry cfg st (cid, lessee)).getD st) =
      some { rc with next_rent_block := st.currentBlock + rc.rental_periodic_interval } := by
  have hne' : c.lessor ≠ lessee := Ne.symm hne
  have hbal2 : p * rc.rental_periodic_interval ≤ (alookup st.balances lessee).getD 0 := hbal
  have hcap2 : ((alookup st.pendingRentals
      (st.currentBlock + rc.rental_periodic_interval)).getD []).length <
      cfg.maximumRentablesPerBlock := hcap
  refine ⟨?_, ?_, ?_, ?_, ?_, ?_⟩ <;>
    simp [process_rental_entry, hrc, hc, hrent, hl, hrec, hp, transfer_funds, hbal2,
      getBalance, pushEvent, getPendingRentals, append_pending_rental_to_available_block,
      hcap2, balanceOf, bucketAt, agreementAt, alookup_ainsert_self, alookup_ainsert_ne,
      hne, hne']

/-- Claim C6: a recurring agreement whose lessee cannot afford the due charge
is terminated by the sweep (lessee cleared, agreement deleted, lessee
force-unequipped), the distinct payment-failure signal is emitted instead of
the normal signals, no further obligation is scheduled, the ledger is
untouched, and the sweep continues with the remaining entries of the same
bucket. -/
theorem C6_insufficient_funds_terminates (cfg : Config) (st : State)
    (cid lessee : Nat) (rc : RentalPeriodConfig) (c : Collectible) (p : Nat)
    (rest : List (Nat × Nat))
    (hrc : alookup st.lesseeCollectibles (lessee, cid) = some rc)
    (hrec : rc.recurring = true)
    (hc : alookup st.collectibles cid = some c)
    (hid : c.collectible_id = cid)
    (hrent : c.rentable = true)
    (hl : c.lessee ≠ none)
    (hp : c.price_per_block = some p)
    (hbal : getBalance st lessee < p * rc.rental_periodic_interval) :
    (process_rental_entry cfg st (cid, lessee)).isSome = true ∧
    collAt cid ((process_rental_entry cfg st (cid, lessee)).getD st) =
      some { c with lessee := none } ∧
    agreementAt (lessee, cid) ((process_rental_entry cfg st (cid, lessee)).getD st) = none ∧
    cid ∉ equipsOf lessee ((process_rental_entry cfg st (cid, lessee)).getD st) ∧
    ((process_rental_entry cfg st (cid, lessee)).getD st).events.head? =
      some (Event.ErrorTransferingRent c.lessor lessee cid) ∧
    ((process_rental_entry cfg st (cid, lessee)).getD st).pendingRentals = st.pendingRentals ∧
    ((process_rental_entry cfg st (cid, lessee)).getD st).balances = st.balances ∧
    process_rental_list cfg st ((cid, lessee) :: rest) =
      process_rental_list cfg ((process_rental_entry cfg st (cid, lessee)).getD st) rest := by
  have hbal2 : ¬ p * rc.rental_periodic_interval ≤ (alookup st.balances lessee).getD 0 :=
    Nat.not_le.2 hbal
  have hstep : process_rental_entry cfg st (cid, lessee) =
      some (pushEvent (remove_lessee_from_collectible st lessee c)
        (Event.ErrorTransferingRent c.lessor lessee cid)) := by
    simp [process_rental_entry, hrc, hc, hrent, hl, hrec, hp, transfer_funds, hbal2,
      getBalance]
  refine ⟨?_, ?_, ?_, ?_, ?_, ?_, ?_, ?_⟩
  · simp [hstep]
  · simp [hstep, pushEvent, remove_lessee_from_collectible, hid, unequip_collectibles,
      collAt, alookup_ainsert_self]
  · simp [hstep, pushEvent, remove_lessee_from_collectible, hid, unequip_lesseeCollectibles,
      agreementAt, alookup_aremove_self]
  · simp only [hstep, Option.getD_some, equipsOf, pushEvent, remove_lessee_from_collectible,
      hid, unequip_accountEquips, alookup_ainsert_self, Option.getD_some]
    intro hmem'
    simpa using (List.mem_filter.1 hmem').2
  · simp [hstep, pushEvent]
  · simp [hstep, pushEvent, remove_lessee_from_collectible, hid, unequip_pendingRentals]
  · simp [hstep, pushEvent, remove_lessee_from_collectible, hid, unequip_balances]
  · simp [process_rental_list, hstep]

/-- Claim C7: a non-recurring agreement reaching its due tick is terminated
by the sweep without any ledger transfer, whatever the lessee's balance: the
balances are untouched, the lessee is cleared, the agreement deleted, the
lessee force-unequipped and the rental-ended signal emitted. -/
theorem C7_non_recurring_terminates (cfg : Config) (st : State)
    (cid lessee : Nat) (rc : RentalPeriodConfig) (c : Collectible)
    (hrc : alookup st.lesseeCollectibles (lessee, cid) = some rc)
    (hrec : rc.recurring = false)
    (hc : alookup st.collectibles cid = some c)
    (hid : c.collectible_id = cid) :
    (process_rental_entry cfg st (cid, lessee)).isSome = true ∧
    ((process_rental_entry cfg st (cid, lessee)).getD st).balances = st.balances ∧
    collAt cid ((process_rental_entry cfg st (cid, lessee)).getD st) =
      some { c with lessee := none } ∧
    agreementAt (lessee, cid) ((process_rental_entry cfg st (cid, lessee)).getD st) = none ∧
    cid ∉ equipsOf lessee ((process_rental_entry cfg st (cid, lessee)).getD st) ∧
    ((process_rental_entry cfg st (cid, lessee)).getD st).events.head? =
      some (Event.RentalEnded c.lessor lessee cid) ∧
    ((process_rental_entry cfg st (cid, lessee)).getD st).pendingRentals = st.pendingRentals := by
  have hstep : process_rental_entry cfg st (cid, lessee) =
      some (pushEvent (remove_lessee_from_collectible st lessee c)
        (Event.RentalEnded c.lessor lessee cid)) := by
    simp [process_rental_entry, hrc, hc, hrec]
  refine ⟨?_, ?_, ?_, ?_, ?_, ?_, ?_⟩
  · simp [hstep]
  · simp [hstep, pushEvent, remove_lessee_from_collectible, hid, unequip_balances]
  · simp [hstep, pushEvent, remove_lessee_from_collectible, hid, unequip_collectibles,
      collAt, alookup_ainsert_self]
  · simp [hstep, pushEvent, remove_lessee_from_collectible, hid, unequip_lesseeCollectibles,
      agreementAt, alookup_aremove_self]
  · simp only [hstep, Option.getD_some, equipsOf, pushEvent, remove_lessee_from_collectible,
      hid, unequip_accountEquips, alookup_ainsert_self, Option.getD_some]
    intro hmem'
    simpa using (List.mem_filter.1 hmem').2
  · simp [hstep, pushEvent]
  · simp [hstep, pushEvent, remove_lessee_from_collectible, hid, unequip_pendingRentals]

/-- Counterexample to claim C4: the sweep can fail on a reachable state.
From genesis, with one obligation allowed per bucket (`cfgSmall`), three
collectibles are minted, priced and rented at block 1 so that buckets 4 and 5
are full and a recurring rental is due at block 3; the sweep of block 2 is
empty and succeeds, but the sweep of block 3, rescheduling the recurring
rental, probes the full target bucket 5, falls back to the full bucket 4, and
the probe loop never terminates: `do_process_rental_periods` is `none`, so
the per-tick sweep is not failure-free. -/
theorem C4_counterexample :
    run_calls cfgSmall stGenesis c4calls = some stC4 ∧
    advance_block cfgSmall stC4 = some stC4b ∧
    advance_block cfgSmall stC4b = none := by
  refine ⟨by rfl, by rfl, by decide⟩

/-- Claim C4 (amended): for a drained-bucket entry whose agreement and
referenced asset both exist, the sweep terminates the rental and continues to
the next entry whenever the asset is not rentable, has no current lessee, or
the agreement is not recurring; and a failed due-payment transfer is likewise
absorbed into a termination (with the payment-failure signal) after which the
remaining entries are still processed.  The sweep is, however, not total: it
hangs when a reschedule probe meets two full buckets, and an entry whose
agreement or asset is missing panics rather than terminating. -/
theorem C4_amended (cfg : Config) (st : State) (cid lessee : Nat)
    (rc : RentalPeriodConfig) (c : Collectible) (rest : List (Nat × Nat))
    (hrc : alookup st.lesseeCollectibles (lessee, cid) = some rc)
    (hc : alookup st.collectibles cid = some c)
    (hid : c.collectible_id = cid) :
    ((¬ c.rentable = true ∨ c.lessee = none ∨ ¬ rc.recurring = true) →
      (process_rental_entry cfg st (cid, lessee)).isSome = true ∧
      collAt cid ((process_rental_entry cfg st (cid, lessee)).getD st) =
        some { c with lessee := none } ∧
      agreementAt (lessee, cid) ((process_rental_entry cfg st (cid, lessee)).getD st) = none ∧
      cid ∉ equipsOf lessee ((process_rental_entry cfg st (cid, lessee)).getD st) ∧
      ((process_rental_entry cfg st (cid, lessee)).getD st).events.head? =
        some (Event.RentalEnded c.lessor lessee cid) ∧
      process_rental_list cfg st ((cid, lessee) :: rest) =
        process_rental_list cfg ((process_rental_entry cfg st (cid, lessee)).getD st) rest) ∧
    (∀ p : Nat, c.rentable = true → c.lessee ≠ none → rc.recurring = true →
      c.price_per_block = some p →
      getBalance st lessee < p * rc.rental_periodic_interval →
      (process_rental_entry cfg st (cid, lessee)).isSome = true ∧
      ((process_rental_entry cfg st (cid, lessee)).getD st).events.head? =
        some (Event.ErrorTransferingRent c.lessor lessee cid) ∧
      process_rental_list cfg st ((cid, lessee) :: rest) =
        process_rental_list cfg ((process_rental_entry cfg st (cid, lessee)).getD st) rest) := by
  constructor
  · intro hcond
    have hstep : process_rental_entry cfg st (cid, lessee) =
        some (pushEvent (remove_lessee_from_collectible st lessee c)
          (Event.RentalEnded c.lessor lessee cid)) := by
      simp only [process_rental_entry, hrc, hc]
      rw [if_pos hcond]
    refine ⟨?_, ?_, ?_, ?_, ?_, ?_⟩
    · simp [hstep]
    · simp [hstep, pushEvent, remove_lessee_from_collectible, hid, unequip_collectibles,
        collAt, alookup_ainsert_self]
    · simp [hstep, pushEvent, remove_lessee_from_collectible, hid,
        unequip_lesseeCollectibles, agreementAt, alookup_aremove_self]
    · simp only [hstep, Option.getD_some, equipsOf, pushEvent,
        remove_lessee_from_collectible, hid, unequip_accountEquips, alookup_ainsert_self]
      intro hmem'
      simpa using (List.mem_filter.1 hmem').2
    · simp [hstep, pushEvent]
    · simp [process_rental_list, hstep]
  · intro p hrent hl hrec hp hbal
    have hbal2 : ¬ p * rc.rental_periodic_interval ≤ (alookup st.balances lessee).getD 0 :=
      Nat.not_le.2 hbal
    have hstep : process_rental_entry cfg st (cid, lessee) =
        some (pushEvent (remove_lessee_from_collectible st lessee c)
          (Event.ErrorTransferingRent c.lessor lessee cid)) := by
      simp [process_rental_entry, hrc, hc, hrent, hl, hrec, hp, transfer_funds, hbal2,
        getBalance]
    refine ⟨?_, ?_, ?_⟩
    · simp [hstep]
    · simp [hstep, pushEvent]
    · simp [process_rental_list, hstep]

/-- Witness for C4 at concrete states: the terminate clause at the
non-recurring rental of `stSweepNonRec` and the absorbed-transfer-failure
clause at the underfunded rental of `stSweepPoor`. -/
theorem C4_witness :
    ((process_rental_entry cfgMock stSweepNonRec (9, 2)).isSome = true ∧
      collAt 9 ((process_rental_entry cfgMock stSweepNonRec (9, 2)).getD stSweepNonRec) =
        some { cSweep with lessee := none } ∧
      agreementAt (2, 9)
        ((process_rental_entry cfgMock stSweepNonRec (9, 2)).getD stSweepNonRec) = none ∧
      9 ∉ equipsOf 2 ((process_rental_entry cfgMock stSweepNonRec (9, 2)).getD stSweepNonRec) ∧
      ((process_rental_entry cfgMock stSweepNonRec (9, 2)).getD stSweepNonRec).events.head? =
        some (Event.RentalEnded cSweep.lessor 2 9) ∧
      process_rental_list cfgMock stSweepNonRec ((9, 2) :: [(55, 66)]) =
        process_rental_list cfgMock
          ((process_rental_entry cfgMock stSweepNonRec (9, 2)).getD stSweepNonRec)
          [(55, 66)]) ∧
    ((process_rental_entry cfgMock stSweepPoor (9, 2)).isSome = true ∧
      ((process_rental_entry cfgMock stSweepPoor (9, 2)).getD stSweepPoor).events.head? =
        some (Event.ErrorTransferingRent cSweep.lessor 2 9) ∧
      process_rental_list cfgMock stSweepPoor ((9, 2) :: [(55, 66)]) =
        process_rental_list cfgMock
          ((process_rental_entry cfgMock stSweepPoor (9, 2)).getD stSweepPoor)
          [(55, 66)]) :=
  And.intro
    ((C4_amended cfgMock stSweepNonRec 9 2
      { rental_periodic_interval := 10, next_rent_block := 11, recurring := false }
      cSweep [(55, 66)] (by decide) (by decide) (by decide)).1 (by decide))
    ((C4_amended cfgMock stSweepPoor 9 2
      { rental_periodic_interval := 10, next_rent_block := 11, recurring := true }
      cSweep [(55, 66)] (by decide) (by decide) (by decide)).2 100 (by decide) (by decide)
      (by decide) (by decide) (by decide))

/-- Witness for C5 at the concrete recurring rental of `stSweep`. -/
theorem C5_witness :
    (process_rental_entry cfgMock stSweep (9, 2)).isSome = true ∧
    balanceOf 2 ((process_rental_entry cfgMock stSweep (9, 2)).getD stSweep) =
      getBalance stSweep 2 - 100 * 10 ∧
    balanceOf cSweep.lessor ((process_rental_entry cfgMock stSweep (9, 2)).getD stSweep) =
      getBalance stSweep cSweep.lessor + 100 * 10 ∧
    Event.RentPayed cSweep.lessor 2 9 (100 * 10) ∈
      ((process_rental_entry cfgMock stSweep (9, 2)).getD stSweep).events ∧
    bucketAt (stSweep.currentBlock + 10)
        ((process_rental_entry cfgMock stSweep (9, 2)).getD stSweep) =
      getPendingRentals stSweep (stSweep.currentBlock + 10) ++ [(9, 2)] ∧
    agreementAt (2, 9) ((process_rental_entry cfgMock stSweep (9, 2)).getD stSweep) =
      some { rental_periodic_interval := 10
             next_rent_block := stSweep.currentBlock + 10
             recurring := true } :=
  C5_recurring_renewal cfgMock stSweep 9 2
    { rental_periodic_interval := 10, next_rent_block := 11, recurring := true }
    cSweep 100 (by decide) (by decide) (by decide) (by decide) (by decide) (by decide)
    (by decide) (by decide) (by decide)

/-- Witness for C6 at the concrete underfunded recurring rental of
`stSweepPoor`. -/
theorem C6_witness :
    (process_rental_entry cfgMock stSweepPoor (9, 2)).isSome = true ∧
    collAt 9 ((process_rental_entry cfgMock stSweepPoor (9, 2)).getD stSweepPoor) =
      some { cSweep with lessee := none } ∧
    agreementAt (2, 9) ((process_rental_entry cfgMock stSweepPoor (9, 2)).getD stSweepPoor) =
      none ∧
    9 ∉ equipsOf 2 ((process_rental_entry cfgMock stSweepPoor (9, 2)).getD stSweepPoor) ∧
    ((process_rental_entry cfgMock stSweepPoor (9, 2)).getD stSweepPoor).events.head? =
      some (Event.ErrorTransferingRent cSweep.lessor 2 9) ∧
    ((process_rental_entry cfgMock stSweepPoor (9, 2)).getD stSweepPoor).pendingRentals =
      stSweepPoor.pendingRentals ∧
    ((process_rental_entry cfgMock stSweepPoor (9, 2)).getD stSweepPoor).balances =
      stSweepPoor.balances ∧
    process_rental_list cfgMock stSweepPoor ((9, 2) :: [(77, 88)]) =
      process_rental_list cfgMock
        ((process_rental_entry cfgMock stSweepPoor (9, 2)).getD stSweepPoor) [(77, 88)] :=
  C6_insufficient_funds_terminates cfgMock stSweepPoor 9 2
    { rental_periodic_interval := 10, next_rent_block := 11, recurring := true }
    cSweep 100 [(77, 88)] (by decide) (by decide) (by decide) (by decide) (by decide)
    (by decide) (by decide) (by decide)

/-- Witness for C7 at the concrete non-recurring rental of `stSweepNonRec`,
whose lessee could well afford the charge. -/
theorem C7_witness :
    (process_rental_entry cfgMock stSweepNonRec (9, 2)).isSome = true ∧
    ((process_rental_entry cfgMock stSweepNonRec (9, 2)).getD stSweepNonRec).balances =
      stSweepNonRec.balances ∧
    collAt 9 ((process_rental_entry cfgMock stSweepNonRec (9, 2)).getD stSweepNonRec) =
      some { cSweep with lessee := none } ∧
    agreementAt (2, 9)
      ((process_rental_entry cfgMock stSweepNonRec (9, 2)).getD stSweepNonRec) = none ∧
    9 ∉ equipsOf 2 ((process_rental_entry cfgMock stSweepNonRec (9, 2)).getD stSweepNonRec) ∧
    ((process_rental_entry cfgMock stSweepNonRec (9, 2)).getD stSweepNonRec).events.head? =
      some (Event.RentalEnded cSweep.lessor 2 9) ∧
    ((process_rental_entry cfgMock stSweepNonRec (9, 2)).getD stSweepNonRec).pendingRentals =
      stSweepNonRec.pendingRentals :=
  C7_non_recurring_terminates cfgMock stSweepNonRec 9 2
    { rental_periodic_interval := 10, next_rent_block := 11, recurring := false }
    cSweep (by decide) (by decide) (by decide) (by decide)

/-- Claim C8: for an active agreement, `extend_rent` enforces
`next_due_tick + extra_ticks <= maximum_rental_period` (rejecting with the
too-long error otherwise), charges `extra_ticks * price_per_tick` from lessee
to lessor, removes the agreement's obligation from its present bucket,
inserts exactly one new obligation at the bucket probed from the old due
tick + extra_ticks, and updates the agreement's next due tick; no obligation
for the collectible remains at the old tick. -/
theorem C8_extend_rent (cfg : Config) (st : State) (lessee cid blocks : Nat)
    (c : Collectible) (rc : RentalPeriodConfig) (M p : Nat)
    (hc : fetch_collectible st cid = some c)
    (hid : c.collectible_id = cid)
    (hl : c.lessee = some lessee)
    (hrc : alookup st.lesseeCollectibles (lessee, cid) = some rc)
    (hmax : c.maximum_rental_period = some M)
    (hp : c.price_per_block = some p)
    (hblocks : 0 < blocks)
    (h32b : blocks < 2 ^ 32) (h32p : p < 2 ^ 32) (h32t : blocks * p < 2 ^ 32)
    (hne : lessee ≠ c.lessor)
    (hbal : blocks * p ≤ getBalance st lessee)
    (hcap : (getPendingRentals st (rc.next_rent_block + blocks)).length <
      cfg.maximumRentablesPerBlock) :
    (M < blocks + rc.next_rent_block →
      extend_rent cfg st lessee cid blocks =
        some (Except.error (Error.RentalPeriodTooLong, st))) ∧
    (blocks + rc.next_rent_block ≤ M →
      (okState (extend_rent cfg st lessee cid blocks)).isSome = true ∧
      balanceOf lessee ((okState (extend_rent cfg st lessee cid blocks)).getD st) =
        getBalance st lessee - blocks * p ∧
      balanceOf c.lessor ((okState (extend_rent cfg st lessee cid blocks)).getD st) =
        getBalance st c.lessor + blocks * p ∧
      agreementAt (lessee, cid) ((okState (extend_rent cfg st lessee cid blocks)).getD st) =
        some { rc with next_rent_block := rc.next_rent_block + blocks } ∧
      bucketAt (rc.next_rent_block + blocks)
          ((okState (extend_rent cfg st lessee cid blocks)).getD st) =
        getPendingRentals st (rc.next_rent_block + blocks) ++ [(cid, lessee)] ∧
      ∀ q ∈ bucketAt rc.next_rent_block
          ((okState (extend_rent cfg st lessee cid blocks)).getD st), q.1 ≠ cid) := by
  constructor
  · intro hlt
    simp [extend_rent, hc, hl, do_extend_rent, hid, hrc, hmax, hlt]
  · intro hle
    have hlt' : ¬ M < blocks + rc.next_rent_block := by omega
    have hgb : ¬ 4294967296 ≤ blocks := by omega
    have hgp : ¬ 4294967296 ≤ p := by omega
    have hmod : blocks * p % 4294967296 = blocks * p := Nat.mod_eq_of_lt h32t
    have hbal2 : blocks * p ≤ (alookup st.balances lessee).getD 0 := hbal
    have hneq : rc.next_rent_block + blocks ≠ rc.next_rent_block := by omega
    have hneq' : rc.next_rent_block ≠ rc.next_rent_block + blocks := by omega
    have hne' : c.lessor ≠ lessee := Ne.symm hne
    have hcap2 : ((alookup st.pendingRentals (rc.next_rent_block + blocks)).getD []).length <
        cfg.maximumRentablesPerBlock := hcap
    refine ⟨?_, ?_, ?_, ?_, ?_, ?_⟩ <;>
      simp [extend_rent, hc, hl, do_extend_rent, hid, hrc, hmax, hlt', hgb, hgp, hmod, hp,
        transfer_funds, hbal2, getBalance, pushEvent, getPendingRentals,
        append_pending_rental_to_available_block, okState, balanceOf, bucketAt,
        agreementAt, alookup_ainsert_self, alookup_ainsert_ne, hne, hne', hneq, hneq',
        hcap2, List.mem_filter]

/-- Witness for C8 at the concrete rental of `stExtend`: a three-block
extension succeeds and moves the obligation from bucket 11 to bucket 14; a
twenty-five-block extension is rejected as too long. -/
theorem C8_witness :
    ((okState (extend_rent cfgMock stExtend 2 9 3)).isSome = true ∧
      balanceOf 2 ((okState (extend_rent cfgMock stExtend 2 9 3)).getD stExtend) =
        getBalance stExtend 2 - 3 * 100 ∧
      balanceOf cSweep.lessor ((okState (extend_rent cfgMock stExtend 2 9 3)).getD stExtend) =
        getBalance stExtend cSweep.lessor + 3 * 100 ∧
      agreementAt (2, 9) ((okState (extend_rent cfgMock stExtend 2 9 3)).getD stExtend) =
        some { rental_periodic_interval := 10
               next_rent_block := 11 + 3
               recurring := false } ∧
      bucketAt (11 + 3) ((okState (extend_rent cfgMock stExtend 2 9 3)).getD stExtend) =
        getPendingRentals stExtend (11 + 3) ++ [(9, 2)] ∧
      ∀ q ∈ bucketAt 11 ((okState (extend_rent cfgMock stExtend 2 9 3)).getD stExtend),
        q.1 ≠ 9) ∧
    extend_rent cfgMock stExtend 2 9 25 =
      some (Except.error (Error.RentalPeriodTooLong, stExtend)) :=
  And.intro
    ((C8_extend_rent cfgMock stExtend 2 9 3 cSweep
      { rental_periodic_interval := 10, next_rent_block := 11, recurring := false }
      30 100 (by decide) (by decide) (by decide) (by decide) (by decide) (by decide)
      (by decide) (by decide) (by decide) (by decide) (by decide) (by decide)
      (by decide)).2 (by decide))
    ((C8_extend_rent cfgMock stExtend 2 9 25 cSweep
      { rental_periodic_interval := 10, next_rent_block := 11, recurring := false }
      30 100 (by decide) (by decide) (by decide) (by decide) (by decide) (by decide)
      (by decide) (by decide) (by decide) (by decide) (by decide) (by decide)
      (by decide)).1 (by decide))

/-- Claim C9: whenever a dispatchable returns an error, the observable state
is unchanged: `dispatch` returns the caller's original state with the error
(the frame transactional storage layer reverts the storage changes of a
failed call), and at the raw storage level every error is produced before
any mutation, except the owned-list capacity error of `mint` and the
rentable-index capacity error of `set_rentable`, which are produced after a
collectible insert that the transactional layer then reverts. -/
theorem C9_error_no_state_change (cfg : Config) (st : State) (c : Call)
    (e : Error) (stErr : State)
    (h : dispatch_raw cfg st c = some (Except.error (e, stErr))) :
    dispatch cfg st c = some (st, some e) ∧
    (stErr = st ∨
      (e = Error.TooManyCollectiblesOwned ∧ ∃ s i, c = Call.mint s i) ∨
      (e = Error.TooManyCollectibles ∧
        ∃ s i pr mn mx, c = Call.set_rentable s i pr mn mx)) := by
  refine ⟨by simp [dispatch, h], ?_⟩
  cases c with
  | mint sender cid =>
    simp only [dispatch_raw, Option.some.injEq] at h
    unfold do_mint at h
    try dsimp only at h
    split at h
    · simp only [Except.error.injEq, Prod.mk.injEq] at h
      exact Or.inl h.2.symm
    · split at h
      · exact absurd h (by simp)
      · simp only [Except.error.injEq, Prod.mk.injEq] at h
        exact Or.inr (Or.inl ⟨h.1.symm, sender, cid, rfl⟩)
  | burn sender cid =>
    simp only [dispatch_raw, Option.some.injEq] at h
    unfold burn at h
    try dsimp only at h
    split at h
    · simp only [Except.error.injEq, Prod.mk.injEq] at h
      exact Or.inl h.2.symm
    · split at h
      · simp only [Except.error.injEq, Prod.mk.injEq] at h
        exact Or.inl h.2.symm
      · split at h
        · simp only [Except.error.injEq, Prod.mk.injEq] at h
          exact Or.inl h.2.symm
        · exact absurd h (by simp)
  | set_rentable sender cid price minP maxP =>
    simp only [dispatch_raw, Option.some.injEq] at h
    unfold set_rentable at h
    try dsimp only at h
    split at h
    · simp only [Except.error.injEq, Prod.mk.injEq] at h
      exact Or.inl h.2.symm
    · split at h
      · simp only [Except.error.injEq, Prod.mk.injEq] at h
        exact Or.inl h.2.symm
      · split at h
        · simp only [Except.error.injEq, Prod.mk.injEq] at h
          exact Or.inl h.2.symm
        · split at h
          · simp only [Except.error.injEq, Prod.mk.injEq] at h
            exact Or.inl h.2.symm
          · split at h
            · exact absurd h (by simp)
            · simp only [Except.error.injEq, Prod.mk.injEq] at h
              exact Or.inr (Or.inr ⟨h.1.symm, sender, cid, price, minP, maxP, rfl⟩)
  | rent sender cid blocks recurring =>
    simp only [dispatch_raw] at h
    unfold rent at h
    try dsimp only at h
    split at h
    · simp only [Option.some.injEq, Except.error.injEq, Prod.mk.injEq] at h
      exact Or.inl h.2.symm
    · split at h
      · simp only [Option.some.injEq, Except.error.injEq, Prod.mk.injEq] at h
        exact Or.inl h.2.symm
      · split at h
        · simp only [Option.some.injEq, Except.error.injEq, Prod.mk.injEq] at h
          exact Or.inl h.2.symm
        · split at h
          · simp only [Option.some.injEq, Except.error.injEq, Prod.mk.injEq] at h
            exact Or.inl h.2.symm
          · split at h
            · simp only [Option.some.injEq, Except.error.injEq, Prod.mk.injEq] at h
              exact Or.inl h.2.symm
            · split at h
              · simp only [Option.some.injEq, Except.error.injEq, Prod.mk.injEq] at h
                exact Or.inl h.2.symm
              · unfold do_rent_collectible at h
                try dsimp only at h
                split at h
                · simp only [Option.some.injEq, Except.error.injEq, Prod.mk.injEq] at h
                  exact Or.inl h.2.symm
                · split at h
                  · exact absurd h (by simp)
                  · split at h
                    · simp only [Option.some.injEq, Except.error.injEq,
                        Prod.mk.injEq] at h
                      exact Or.inl h.2.symm
                    · split at h
                      · exact absurd h (by simp)
                      · exact absurd h (by simp)
  | set_unrentable sender cid =>
    simp only [dispatch_raw, Option.some.injEq] at h
    unfold set_unrentable at h
    try dsimp only at h
    split at h
    · simp only [Except.error.injEq, Prod.mk.injEq] at h
      exact Or.inl h.2.symm
    · split at h
      · simp only [Except.error.injEq, Prod.mk.injEq] at h
        exact Or.inl h.2.symm
      · exact absurd h (by simp)
  | set_recurring sender cid recurring =>
    simp only [dispatch_raw, Option.some.injEq] at h
    unfold set_recurring at h
    try dsimp only at h
    split at h
    · simp only [Except.error.injEq, Prod.mk.injEq] at h
      exact Or.inl h.2.symm
    · split at h
      · simp only [Except.error.injEq, Prod.mk.injEq] at h
        exact Or.inl h.2.symm
      · split at h
        · simp only [Except.error.injEq, Prod.mk.injEq] at h
          exact Or.inl h.2.symm
        · split at h
          · simp only [Except.error.injEq, Prod.mk.injEq] at h
            exact Or.inl h.2.symm
          · exact absurd h (by simp)
  | extend_rent sender cid blocks =>
    simp only [dispatch_raw] at h
    unfold extend_rent at h
    try dsimp only at h
    split at h
    · simp only [Option.some.injEq, Except.error.injEq, Prod.mk.injEq] at h
      exact Or.inl h.2.symm
    · split at h
      · simp only [Option.some.injEq, Except.error.injEq, Prod.mk.injEq] at h
        exact Or.inl h.2.symm
      · split at h
        · simp only [Option.some.injEq, Except.error.injEq, Prod.mk.injEq] at h
          exact Or.inl h.2.symm
        · unfold do_extend_rent at h
          try dsimp only at h
          split at h
          · exact absurd h (by simp)
          · split at h
            · simp only [Option.some.injEq, Except.error.injEq, Prod.mk.injEq] at h
              exact Or.inl h.2.symm
            · split at h
              · exact absurd h (by simp)
              · split at h
                · simp only [Option.some.injEq, Except.error.injEq, Prod.mk.injEq] at h
                  exact Or.inl h.2.symm
                · split at h
                  · exact absurd h (by simp)
                  · split at h
                    · exact absurd h (by simp)
                    · split at h
                      · simp only [Option.some.injEq, Except.error.injEq,
                          Prod.mk.injEq] at h
                        exact Or.inl h.2.symm
                      · split at h
                        · exact absurd h (by simp)
                        · exact absurd h (by simp)
  | equip_collectible sender cid =>
    simp only [dispatch_raw, Option.some.injEq] at h
    unfold equip_collectible at h
    try dsimp only at h
    split at h
    · simp only [Except.error.injEq, Prod.mk.injEq] at h
      exact Or.inl h.2.symm
    · split at h
      · simp only [Except.error.injEq, Prod.mk.injEq] at h
        exact Or.inl h.2.symm
      · split at h
        · exact absurd h (by simp)
        · simp only [Except.error.injEq, Prod.mk.injEq] at h
          exact Or.inl h.2.symm
  | unequip_collectible sender cid =>
    simp only [dispatch_raw, Option.some.injEq] at h
    unfold unequip_collectible at h
    try dsimp only at h
    split at h
    · simp only [Except.error.injEq, Prod.mk.injEq] at h
      exact Or.inl h.2.symm
    · split at h
      · simp only [Except.error.injEq, Prod.mk.injEq] at h
        exact Or.inl h.2.symm
      · exact absurd h (by simp)

/-- Witness for C9 at a concrete failing call: burning a collectible that
does not exist errors with NoCollectible and leaves the state unchanged. -/
theorem C9_witness :
    dispatch cfgMock stGenesis (Call.burn 1 99) = some (stGenesis, some Error.NoCollectible) ∧
    (stGenesis = stGenesis ∨
      (Error.NoCollectible = Error.TooManyCollectiblesOwned ∧
        ∃ s i, Call.burn 1 99 = Call.mint s i) ∨
      (Error.NoCollectible = Error.TooManyCollectibles ∧
        ∃ s i pr mn mx, Call.burn 1 99 = Call.set_rentable s i pr mn mx)) :=
  C9_error_no_state_change cfgMock stGenesis (Call.burn 1 99) Error.NoCollectible stGenesis
    (by rfl)

/-- Witness for C10 at a concrete state. -/
theorem C10_witness :
    ∃ st', burn stBurn 1 3 = Except.ok st' ∧
      st'.rentableCollectibles = stBurn.rentableCollectibles ∧
      3 ∈ st'.rentableCollectibles ∧
      alookup st'.collectibles 3 = none ∧
      3 ∉ ((alookup st'.lessorCollectibles 1).getD []) ∧
      3 ∉ ((alookup st'.accountEquips 1).getD []) :=
  C10_burn_leaves_rentable_index stBurn 1 3 cBurn (by rfl) (by rfl) (by rfl) (by rfl) (by decide)
